import Mathlib

/-!
Shallow embedding of `members/forms.py` (Django form classes of the tutti
membership-management application) and proofs about its validation behavior.

The embedding translates the repository's own code.  Behavior of the hosting
framework (Django's form lifecycle: per-field cleaning, `clean_<field>` hooks,
error collection, the whole-form `clean`) and of the LDAP client library is
modelled explicitly as the environment in which that code runs; external
oracles (the directory's response to a bind, the stored-hash comparison, the
database contents) are parameters.
-/

namespace Tutti

/-! ## LDAP bind helper (`try_ldap_bind`) -/

/-- Exceptions the LDAP client may raise on `conn.bind()`:
the distinguishable invalid-credentials result, or any other error
(identified by an arbitrary code). -/
inductive LdapExc where
  | invalidCredentials : LdapExc
  | other : Nat → LdapExc
deriving DecidableEq, Repr

/-- The directory service: its response to a bind attempt with a given
bind identity and password. -/
abbrev Directory := String → String → Except LdapExc Unit

/-- An LDAP connection object, as used by `try_ldap_bind`: mutable `user` and
`password` attributes, and a counter of how many times `unbind` was called. -/
structure Conn where
  user : String
  password : String
  unbindCount : Nat
deriving DecidableEq, Repr

/-- `sync.ldap.get_connection()`: yields a fresh connection (no unbinds yet). -/
def get_connection : Conn := ⟨"", "", 0⟩

/-- `conn.bind()`: attempts the bind with the connection's current
credentials; outcome given by the directory. -/
def Conn.bindAttempt (dir : Directory) (c : Conn) : Except LdapExc Unit :=
  dir c.user c.password

/-- `conn.unbind()`: releases the connection. -/
def Conn.unbind (c : Conn) : Conn := { c with unbindCount := c.unbindCount + 1 }

/-- Result of a call to `try_ldap_bind`: the returned value (or the
propagated exception) together with the final state of the connection. -/
structure BindCallResult where
  result : Except LdapExc Bool
  conn : Conn
deriving Repr

/-- `try_ldap_bind(user, password)` from `members/forms.py`:

    conn = get_connection()
    conn.user = user
    conn.password = password
    try:
        conn.bind()
    except LDAPInvalidCredentialsResult:
        return False
    finally:
        conn.unbind()
    return True

The `try` body runs first; the `except` clause turns an invalid-credentials
exception into a pending `return False`; the `finally` clause unbinds on every
path before the pending return or exception takes effect. -/
def try_ldap_bind (dir : Directory) (user password : String) : BindCallResult :=
  let conn := get_connection
  let conn := { conn with user := user, password := password }
  let tryBody := conn.bindAttempt dir
  let handled : Except LdapExc (Option Bool) :=
    match tryBody with
    | .ok () => .ok none
    | .error .invalidCredentials => .ok (some false)
    | .error e => .error e
  let conn := conn.unbind
  match handled with
  | .ok (some b) => ⟨.ok b, conn⟩
  | .ok none => ⟨.ok true, conn⟩
  | .error e => ⟨.error e, conn⟩

/-! ## `MyPasswordChangeForm.clean_old_password` -/

/-- A stored user account: username and stored password field
(a hash, or the sentinel string "invalid"). -/
structure UserAcct where
  username : String
  password : String
deriving DecidableEq, Repr

/-- A form validation error, carrying its error code. -/
structure VErr where
  code : String
deriving DecidableEq, Repr

/-- Django's base `PasswordChangeForm.clean_old_password` (framework code,
modelled as the environment): compares the submitted old password against the
stored password using the framework's hash-comparison oracle `check_password`;
on mismatch raises a validation error with code password_incorrect, on match
returns the submitted value. -/
def base_clean_old_password (check_password : String → String → Bool)
    (user : UserAcct) (old_password : String) : Except VErr String :=
  if check_password old_password user.password then .ok old_password
  else .error ⟨"password_incorrect"⟩

/-- The bind identity built by `clean_old_password`:
`"uid=<username>,ou=people,dc=esmgquadrivium,dc=nl"`. -/
def format_ldap_user (username : String) : String :=
  "uid=" ++ username ++ ",ou=people,dc=esmgquadrivium,dc=nl"

/-- Outcome of `MyPasswordChangeForm.clean_old_password`: the value returned
(or validation error raised, or LDAP exception propagated), instrumented with
the number of calls made to `try_ldap_bind` and the number of unbinds those
calls performed. -/
structure CleanOldOutcome where
  result : Except LdapExc (Except VErr String)
  ldapCalls : Nat
  unbinds : Nat
deriving Repr

/-- `MyPasswordChangeForm.clean_old_password` from `members/forms.py`:

    if self.user.password == "invalid":
        old_password = self.cleaned_data["old_password"]
        ldap_user = "uid=<username>,ou=people,dc=esmgquadrivium,dc=nl"
        if not try_ldap_bind(ldap_user, old_password):
            raise forms.ValidationError(..., code="password_incorrect")
        return old_password
    return super().clean_old_password()
-/
def clean_old_password (dir : Directory) (check_password : String → String → Bool)
    (user : UserAcct) (old_password : String) : CleanOldOutcome :=
  if user.password = "invalid" then
    let ldap_user := format_ldap_user user.username
    let call := try_ldap_bind dir ldap_user old_password
    match call.result with
    | .error e => ⟨.error e, 1, call.conn.unbindCount⟩
    | .ok false => ⟨.ok (.error ⟨"password_incorrect"⟩), 1, call.conn.unbindCount⟩
    | .ok true => ⟨.ok (.ok old_password), 1, call.conn.unbindCount⟩
  else
    ⟨.ok (base_clean_old_password check_password user old_password), 0, 0⟩

/-! ## Form-lifecycle machinery (Django, modelled as the environment)

Django's `BaseForm.full_clean` runs `_clean_fields` (per-field cleaning; on a
field's validation error the error is recorded and the field's key is deleted
from `cleaned_data`) and then `_clean_form` (the whole-form `clean`, whose
`ValidationError`s become form errors but whose other exceptions propagate
uncaught). -/

/-- A value in a form's `cleaned_data` dictionary. -/
inductive Value where
  | str : String → Value
  | strList : List String → Value
  | bool : Bool → Value
  | pynone : Value
deriving DecidableEq, Repr

/-- The `cleaned_data` dictionary: association list from field name to value. -/
abbrev CleanedData := List (String × Value)

/-- Dictionary lookup (`d[k]`, successful case). -/
def cdLookup : CleanedData → String → Option Value
  | [], _ => none
  | (k, v) :: rest, n => if k = n then some v else cdLookup rest n

/-- Dictionary assignment (`d[k] = v`). -/
def cdSet : CleanedData → String → Value → CleanedData
  | [], n, v => [(n, v)]
  | (k, w) :: rest, n, v => if k = n then (n, v) :: rest else (k, w) :: cdSet rest n v

/-- Per-field cleaning results for a list of fields, in form-field order. -/
abbrev FieldResults := List (String × Except String Value)

/-- The field errors collected by `_clean_fields`: for each field whose clean
raised a validation error, the pair (field name, error). -/
def fieldErrors (rs : FieldResults) : List (String × String) :=
  rs.flatMap fun p => match p.2 with
    | .error c => [(p.1, c)]
    | .ok _ => []

/-- The `cleaned_data` built by `_clean_fields`: only the fields whose clean
succeeded keep a key. -/
def fieldCleaned (rs : FieldResults) : CleanedData :=
  rs.flatMap fun p => match p.2 with
    | .ok v => [(p.1, v)]
    | .error _ => []

/-- `ChoiceField.clean` (framework): a missing value is coerced to the empty
string; an empty value on a required field is a `required` error; a value not
among the choices is an `invalid_choice` error. -/
def choiceFieldClean (choices : List String) (v : Option String) : Except String String :=
  let s := v.getD ""
  if s = "" then .error "required"
  else if s ∈ choices then .ok s
  else .error "invalid_choice"

/-- `MultipleChoiceField.clean` (framework) for a required field: an empty
selection is a `required` error; any selected value not among the choices is
an `invalid_choice` error. -/
def multipleChoiceFieldClean (choices : List String) (v : List String) :
    Except String (List String) :=
  if v = [] then .error "required"
  else if ∀ x ∈ v, x ∈ choices then .ok v
  else .error "invalid_choice"

/-! ## `SubscribeForm` -/

/-- `SubscribeForm.Meta.required`: fields forced required in `__init__`. -/
def subscribeRequired : List String :=
  ["first_name", "last_name", "initials", "email", "phone_number", "street",
   "postal_code", "city", "country", "gender", "date_of_birth",
   "preferred_language", "is_student", "instruments",
   "photo_video_consent_external_group", "photo_video_consent_external",
   "photo_video_consent_internal", "ensure_subscribe", "add_to_chats"]

/-- `SubscribeForm.Meta.boolean_choices`: the fields replaced by Yes/No
radio choices in `populate_boolean_fields`. -/
def boolean_choices : List String :=
  ["photo_video_consent_external_group", "photo_video_consent_external",
   "photo_video_consent_internal", "is_student"]

/-- Modelled from the spec: the field names of the persisted
`MembershipRequest` model (`members/models.py` is not part of the excerpt).
Section 4.4 of the spec describes `add_to_chats` and `ensure_subscribe` as
"additional non-model fields"; every other name in `SubscribeForm.Meta.fields`
is a field of the membership-request record. -/
def membershipRequestModelFields : List String :=
  ["first_name", "last_name", "initials", "email", "phone_number", "street",
   "postal_code", "city", "country", "gender", "date_of_birth",
   "preferred_language", "field_of_study", "is_student", "iban",
   "tue_card_number", "remarks", "sub_association", "instruments",
   "photo_video_consent_external_group", "photo_video_consent_external",
   "photo_video_consent_internal"]

/-- A `SubscribeForm` submission, restricted to the fields whose cleaning this
excerpt defines (the four Yes/No boolean-choice fields and the two mandatory
checkbox fields); the remaining fields are standard framework fields whose
joint validation outcome is abstracted by the `othersOk` flag below. -/
structure SubscribeSubmission where
  photo_video_consent_external_group : Option String
  photo_video_consent_external : Option String
  photo_video_consent_internal : Option String
  is_student : Option String
  ensure_subscribe : List String
  add_to_chats : List String
deriving DecidableEq, Repr

/-- Cleaning of one boolean-choice field: a `ChoiceField` with choices
`(("Yes", "Yes"), ("No", "No"))` as installed by `populate_boolean_fields`. -/
def booleanChoiceClean (v : Option String) : Except String String :=
  choiceFieldClean ["Yes", "No"] v

/-- Cleaning of `ensure_subscribe` / `add_to_chats`: a required
`MultipleChoiceField` whose single choice has value `"True"`. -/
def checkboxClean (v : List String) : Except String (List String) :=
  multipleChoiceFieldClean ["True"] v

/-- `_clean_fields` results for the claim-relevant `SubscribeForm` fields,
in the order of `Meta.fields`. -/
def subscribeFieldResults (s : SubscribeSubmission) : FieldResults :=
  [("is_student", (booleanChoiceClean s.is_student).map .str),
   ("photo_video_consent_external_group",
     (booleanChoiceClean s.photo_video_consent_external_group).map .str),
   ("photo_video_consent_external",
     (booleanChoiceClean s.photo_video_consent_external).map .str),
   ("photo_video_consent_internal",
     (booleanChoiceClean s.photo_video_consent_internal).map .str),
   ("ensure_subscribe", (checkboxClean s.ensure_subscribe).map .strList),
   ("add_to_chats", (checkboxClean s.add_to_chats).map .strList)]

/-- A Python exception escaping the form lifecycle uncaught. -/
inductive PyExc where
  | keyError : String → PyExc
deriving DecidableEq, Repr

/-- One iteration of the loop in `SubscribeForm.clean`:
`self.cleaned_data[field] = self.cleaned_data[field] == "Yes"`.
Reading a key absent from the dictionary raises `KeyError`. -/
def subscribeCleanStep (cd : CleanedData) (field : String) : Except PyExc CleanedData :=
  match cdLookup cd field with
  | none => .error (.keyError field)
  | some v => .ok (cdSet cd field (.bool (v = .str "Yes")))

/-- `SubscribeForm.clean`:

    for field in self.Meta.boolean_choices:
        self.cleaned_data[field] = self.cleaned_data[field] == "Yes"
    return super().clean()

(`super().clean()` returns `cleaned_data` unchanged here.) -/
def subscribeClean (cd : CleanedData) : Except PyExc CleanedData := do
  let cd ← subscribeCleanStep cd "photo_video_consent_external_group"
  let cd ← subscribeCleanStep cd "photo_video_consent_external"
  let cd ← subscribeCleanStep cd "photo_video_consent_internal"
  subscribeCleanStep cd "is_student"

/-- `full_clean` for `SubscribeForm`: per-field cleaning, then the whole-form
`clean`.  `othersOk` abstracts whether the remaining (framework-standard)
fields all validated; when they did not, at least one further field error is
present.  Returns the form's error list and final `cleaned_data`, or the
uncaught exception raised by `clean`. -/
def subscribeFullClean (s : SubscribeSubmission) (othersOk : Bool) :
    Except PyExc (List (String × String) × CleanedData) :=
  let rs := subscribeFieldResults s
  let errs := fieldErrors rs ++ (if othersOk then [] else [("__others__", "invalid")])
  match subscribeClean (fieldCleaned rs) with
  | .error e => .error e
  | .ok cd => .ok (errs, cd)

/-- `is_valid()` outcome for `SubscribeForm`: true only when `full_clean`
terminated normally with no errors. -/
def subscribeAccepted (s : SubscribeSubmission) (othersOk : Bool) : Bool :=
  match subscribeFullClean s othersOk with
  | .ok (errs, _) => errs.isEmpty
  | .error _ => false

/-! ## `ProcessMembershipRequestForm` -/

/-- The database state the form's validators consult: usernames of existing
accounts, person-ids already used by accounts, and the instrument catalog
(the queryset of the `instruments` field). -/
structure Db where
  existingUsernames : List String
  usedPersonIds : List String
  instrumentCatalog : List String

/-- The message of the duplicate-username validation error. -/
def duplicate_username_message : String :=
  "A user with this username already exists. Please provide an unused username."

/-- Modelled from the spec: the message of the error raised by
`Person.validate_person_id_unique` (`members/models.py` is not part of the
excerpt; the spec says the model-level uniqueness validator is "expected to
raise/signal if already used"). -/
def person_id_not_unique_message : String :=
  "This person id is already used by an existing account."

/-- Modelled from the spec: `Person.validate_person_id_unique`
(`members/models.py` is not part of the excerpt): raises a validation error
when the person-id is already used by an account, otherwise returns nothing. -/
def validate_person_id_unique (db : Db) (person_id : String) : Except String Unit :=
  if person_id ∈ db.usedPersonIds then .error person_id_not_unique_message
  else .ok ()

/-- `ProcessMembershipRequestForm.clean_username`:

    username = self.cleaned_data["username"]
    if User.objects.filter(username=username).exists():
        raise forms.ValidationError("A user with this username already exists. ...")

Note the implicit `return None` on the success path. -/
def clean_username (db : Db) (username : String) : Except String Value :=
  if username ∈ db.existingUsernames then .error duplicate_username_message
  else .ok .pynone

/-- `ProcessMembershipRequestForm.clean_person_id`:

    person_id = self.cleaned_data["person_id"]
    Person.validate_person_id_unique(person_id)

Again an implicit `return None` on the success path. -/
def clean_person_id (db : Db) (person_id : String) : Except String Value :=
  match validate_person_id_unique db person_id with
  | .error m => .error m
  | .ok () => .ok .pynone

/-- `CharField.clean` (framework) for a required field with no extra
validators: a missing or empty value is a `required` error. -/
def charRequiredClean (v : Option String) : Except String String :=
  match v with
  | none => .error "required"
  | some s => if s = "" then .error "required" else .ok s

/-- The `username` field of `ProcessMembershipRequestForm`: required
`CharField` with `UsernameValidator` (modelled from the spec as an abstract
username-format predicate `fmt`, `members/models.py` not being part of the
excerpt), followed by the `clean_username` hook; the hook's return value
replaces the field value in `cleaned_data`. -/
def usernameFieldClean (db : Db) (fmt : String → Bool) (v : Option String) :
    Except String Value :=
  match charRequiredClean v with
  | .error c => .error c
  | .ok u => if fmt u then clean_username db u else .error "invalid"

/-- The `person_id` field: required `CharField` followed by the
`clean_person_id` hook. -/
def personIdFieldClean (db : Db) (v : Option String) : Except String Value :=
  match charRequiredClean v with
  | .error c => .error c
  | .ok p => clean_person_id db p

/-- The `instruments` field: `ModelMultipleChoiceField` over the instrument
catalog with `required=False` (framework): an empty selection is accepted;
selected values must come from the catalog. -/
def instrumentsFieldClean (db : Db) (v : List String) : Except String Value :=
  if ∀ x ∈ v, x ∈ db.instrumentCatalog then .ok (.strList v)
  else .error "invalid_choice"

/-- A `ProcessMembershipRequestForm` submission. -/
structure PMRSubmission where
  username : Option String
  person_id : Option String
  instruments : List String
deriving DecidableEq, Repr

/-- `_clean_fields` results for `ProcessMembershipRequestForm`, in field
order. -/
def processFieldResults (db : Db) (fmt : String → Bool) (s : PMRSubmission) :
    FieldResults :=
  [("username", usernameFieldClean db fmt s.username),
   ("person_id", personIdFieldClean db s.person_id),
   ("instruments", instrumentsFieldClean db s.instruments)]

/-- `full_clean` for `ProcessMembershipRequestForm` (a plain `forms.Form`
with no whole-form `clean` of its own): the collected field errors and the
final `cleaned_data`. -/
def processFullClean (db : Db) (fmt : String → Bool) (s : PMRSubmission) :
    List (String × String) × CleanedData :=
  (fieldErrors (processFieldResults db fmt s),
   fieldCleaned (processFieldResults db fmt s))

/-! ## `ProfileForm` -/

/-- The fields `ProfileForm.Meta.fields` exposes. -/
def profileFields : List String :=
  ["email", "phone_number", "street", "postal_code", "city", "country",
   "preferred_language"]

/-- Configuration of one form field, as far as the claims need it. -/
structure FieldCfg where
  required : Bool
deriving DecidableEq, Repr

/-- Association-list lookup for field configurations. -/
def cfgLookup : List (String × FieldCfg) → String → Option FieldCfg
  | [], _ => none
  | (k, v) :: rest, n => if k = n then some v else cfgLookup rest n

/-- The fields `ModelForm` generates for `ProfileForm` before `__init__` runs
(framework): each field's `required` flag reflects whether the underlying
model field allows a blank value (`personBlank`), so a nullable model field
yields a non-required form field. -/
def profileBaseFields (personBlank : String → Bool) : List (String × FieldCfg) :=
  profileFields.map fun f => (f, ⟨!personBlank f⟩)

/-- `ProfileForm.__init__`:

    for f in ("email", "phone_number", "street", "postal_code", "city",
              "country", "preferred_language"):
        self.fields[f].required = True
-/
def profileFormFields (personBlank : String → Bool) : List (String × FieldCfg) :=
  (profileBaseFields personBlank).map fun p => (p.1, ⟨true⟩)

/-- `CharField`-style cleaning (framework) honouring the `required` flag: a
missing or empty value fails with `required` only when the field is required.
Field-type-specific format checks (email syntax, ...) are framework-standard
and can only add further errors; they are outside the excerpt. -/
def requiredClean (req : Bool) (v : Option String) : Except String String :=
  match v with
  | none => if req then .error "required" else .ok ""
  | some x => if x = "" then (if req then .error "required" else .ok "") else .ok x

/-- The field errors of a `ProfileForm` submission (submission given as a
partial map from field name to submitted value). -/
def profileFieldErrors (personBlank : String → Bool) (s : String → Option String) :
    List (String × String) :=
  (profileFormFields personBlank).flatMap fun p =>
    match requiredClean p.2.required (s p.1) with
    | .error c => [(p.1, c)]
    | .ok _ => []

/-! ## Theorems -/

/-- C2: `try_ldap_bind` returns `False` exactly when the bind raises the
invalid-credentials error, returns `True` when the bind completes without
error, and propagates any other exception uncaught. -/
theorem c2_try_ldap_bind_result (dir : Directory) (user pw : String) :
    ((try_ldap_bind dir user pw).result = .ok false ↔
       dir user pw = .error .invalidCredentials) ∧
    (dir user pw = .ok () → (try_ldap_bind dir user pw).result = .ok true) ∧
    (∀ n, dir user pw = .error (.other n) →
       (try_ldap_bind dir user pw).result = .error (.other n)) := by
  rcases h : dir user pw with e | ⟨⟩
  · cases e <;> simp [try_ldap_bind, Conn.bindAttempt, get_connection, h]
  · simp [try_ldap_bind, Conn.bindAttempt, get_connection, h]

/-- Witness for C2 at a concrete directory that accepts the credentials. -/
theorem c2_witness :
    (try_ldap_bind (fun _ _ => .ok ()) "u" "p").result = .ok true :=
  (c2_try_ldap_bind_result (fun _ _ => .ok ()) "u" "p").2.1 rfl

/-- C3: on every execution of `try_ldap_bind`, the connection acquired from
`get_connection` is unbound exactly once before control returns, on all three
exit paths (successful bind, invalid credentials, other exception). -/
theorem c3_unbind_exactly_once (dir : Directory) (user pw : String) :
    (try_ldap_bind dir user pw).conn.unbindCount = 1 := by
  rcases h : dir user pw with e | ⟨⟩
  · cases e <;>
      simp [try_ldap_bind, Conn.bindAttempt, Conn.unbind, get_connection, h]
  · simp [try_ldap_bind, Conn.bindAttempt, Conn.unbind, get_connection, h]

/-- C1: for an account whose stored password is the sentinel "invalid",
`clean_old_password` is decided solely by the LDAP bind with identity
`uid=<username>,ou=people,dc=esmgquadrivium,dc=nl` and the submitted old
password: a failed bind raises a validation error with code
password_incorrect, a successful bind returns the submitted value, and the
local hash comparison oracle is never consulted (the outcome is the same for
any two oracles). -/
theorem c1_sentinel_ldap_only (dir : Directory) (cp : String → String → Bool)
    (user : UserAcct) (old_password : String) (hs : user.password = "invalid") :
    (dir (format_ldap_user user.username) old_password = .error .invalidCredentials →
       (clean_old_password dir cp user old_password).result =
         .ok (.error ⟨"password_incorrect"⟩)) ∧
    (dir (format_ldap_user user.username) old_password = .ok () →
       (clean_old_password dir cp user old_password).result = .ok (.ok old_password)) ∧
    (∀ cp2 : String → String → Bool,
       clean_old_password dir cp user old_password =
         clean_old_password dir cp2 user old_password) := by
  rcases h : dir (format_ldap_user user.username) old_password with e | ⟨⟩
  · cases e <;>
      simp [clean_old_password, hs, try_ldap_bind, Conn.bindAttempt, get_connection, h]
  · simp [clean_old_password, hs, try_ldap_bind, Conn.bindAttempt, get_connection, h]

/-- Witness for C1: a sentinel account against a directory that rejects the
credentials yields the password_incorrect validation error. -/
theorem c1_witness :
    (clean_old_password (fun _ _ => .error .invalidCredentials) (fun _ _ => true)
        ⟨"jan", "invalid"⟩ "pw").result = .ok (.error ⟨"password_incorrect"⟩) :=
  (c1_sentinel_ldap_only (fun _ _ => .error .invalidCredentials) (fun _ _ => true)
      ⟨"jan", "invalid"⟩ "pw" rfl).1 rfl

/-- C4: for an account whose stored password is not the sentinel,
`clean_old_password` never invokes the LDAP bind helper and its result is
exactly the base class's local comparison; in particular the outcome is
identical for any two behaviours of the directory service. -/
theorem c4_nonsentinel_local_only (dir : Directory) (cp : String → String → Bool)
    (user : UserAcct) (old_password : String) (hs : user.password ≠ "invalid") :
    clean_old_password dir cp user old_password =
      ⟨.ok (base_clean_old_password cp user old_password), 0, 0⟩ ∧
    (clean_old_password dir cp user old_password).ldapCalls = 0 ∧
    (∀ dir2 : Directory,
       clean_old_password dir cp user old_password =
         clean_old_password dir2 cp user old_password) := by
  refine ⟨?_, ?_, ?_⟩ <;> simp [clean_old_password, hs]

/-- Witness for C4 at a concrete non-sentinel account: the result is the base
class's comparison even against a directory that always fails. -/
theorem c4_witness :
    clean_old_password (fun _ _ => .error (.other 3)) (fun _ _ => true)
      ⟨"jan", "hash"⟩ "pw" = ⟨.ok (.ok "pw"), 0, 0⟩ := by
  have h := (c4_nonsentinel_local_only (fun _ _ => .error (.other 3))
    (fun _ _ => true) ⟨"jan", "hash"⟩ "pw" (by decide)).1
  simpa [base_clean_old_password] using h

/-- A field that cleaned to a validation error contributes its error to the
form's field errors. -/
theorem mem_fieldErrors {rs : FieldResults} {n c : String}
    (h : (n, Except.error c) ∈ rs) : (n, c) ∈ fieldErrors rs := by
  unfold fieldErrors
  exact List.mem_flatMap.mpr ⟨(n, .error c), h, by simp⟩

/-- A submission leaving `is_student` unanswered while answering every other
field: the input on which `SubscribeForm` diverges from claim C5. -/
def c5FailingSubmission : SubscribeSubmission :=
  ⟨some "Yes", some "Yes", some "Yes", none, ["True"], ["True"]⟩

/-- C5 (divergence): on a submission whose only flaw is that the
boolean-choice field `is_student` is unanswered, per-field validation does
record the field-level `required` error, but `SubscribeForm.clean` then reads
the deleted key `cleaned_data["is_student"]` and `full_clean` terminates with
an uncaught `KeyError` instead of reporting the form invalid. -/
theorem c5_unanswered_boolean_raises_keyerror :
    subscribeFullClean c5FailingSubmission true = .error (.keyError "is_student") ∧
    fieldErrors (subscribeFieldResults c5FailingSubmission) =
      [("is_student", "required")] := by
  exact ⟨rfl, rfl⟩

/-- C10: a `SubscribeForm` submission with `add_to_chats` or
`ensure_subscribe` unchecked is never accepted; both fields are in the
form's required set, and neither is a field of the persisted
membership-request model. -/
theorem c10_must_tick_gates (s : SubscribeSubmission) (othersOk : Bool)
    (h : s.add_to_chats = [] ∨ s.ensure_subscribe = []) :
    subscribeAccepted s othersOk = false ∧
    "add_to_chats" ∈ subscribeRequired ∧
    "ensure_subscribe" ∈ subscribeRequired ∧
    "add_to_chats" ∉ membershipRequestModelFields ∧
    "ensure_subscribe" ∉ membershipRequestModelFields := by
  refine ⟨?_, by decide, by decide, by decide, by decide⟩
  have hmem : ("add_to_chats", "required") ∈ fieldErrors (subscribeFieldResults s) ∨
      ("ensure_subscribe", "required") ∈ fieldErrors (subscribeFieldResults s) := by
    rcases h with h | h
    · exact Or.inl (mem_fieldErrors (by
        simp [subscribeFieldResults, checkboxClean, multipleChoiceFieldClean, h,
          Except.map]))
    · exact Or.inr (mem_fieldErrors (by
        simp [subscribeFieldResults, checkboxClean, multipleChoiceFieldClean, h,
          Except.map]))
  have hne : fieldErrors (subscribeFieldResults s) ≠ [] := by
    rcases hmem with hm | hm <;> exact List.ne_nil_of_mem hm
  unfold subscribeAccepted subscribeFullClean
  rcases hc : subscribeClean (fieldCleaned (subscribeFieldResults s)) with e | cd
  · simp [hc]
  · simp only [hc]
    have h2 : (fieldErrors (subscribeFieldResults s) ++
        (if othersOk then [] else [("__others__", "invalid")])) ≠ [] := fun h0 =>
      hne (List.append_eq_nil.mp h0).1
    simpa [List.isEmpty_eq_false] using h2

/-- Witness for C10: a concrete submission with `add_to_chats` unchecked is
not accepted. -/
theorem c10_witness :
    subscribeAccepted ⟨some "Yes", some "No", some "Yes", some "No", ["True"], []⟩
      true = false :=
  (c10_must_tick_gates ⟨some "Yes", some "No", some "Yes", some "No", ["True"], []⟩
      true (Or.inl rfl)).1

/-- C7: `ProcessMembershipRequestForm` rejects a taken username with the
user-facing duplicate-username field error, rejects a used person-id with the
error raised by the model-level uniqueness validator, the two errors are
distinct, and a submission with an empty instruments selection raises no
instruments error (with fresh username and unused person-id it is accepted
outright). -/
theorem c7_process_request_validation (db : Db) (fmt : String → Bool)
    (s : PMRSubmission) :
    (∀ u, s.username = some u → u ≠ "" → fmt u = true → u ∈ db.existingUsernames →
       ("username", duplicate_username_message) ∈ (processFullClean db fmt s).1) ∧
    (∀ p, s.person_id = some p → p ≠ "" → p ∈ db.usedPersonIds →
       ("person_id", person_id_not_unique_message) ∈ (processFullClean db fmt s).1) ∧
    duplicate_username_message ≠ person_id_not_unique_message ∧
    (∀ u p, s.username = some u → s.person_id = some p → s.instruments = [] →
       u ≠ "" → fmt u = true → u ∉ db.existingUsernames →
       p ≠ "" → p ∉ db.usedPersonIds →
       (processFullClean db fmt s).1 = []) := by
  refine ⟨?_, ?_, by decide, ?_⟩
  · intro u hu hne hf hc
    exact mem_fieldErrors (by
      simp [processFieldResults, usernameFieldClean, charRequiredClean, hu, hne, hf,
        clean_username, hc])
  · intro p hp hne hc
    exact mem_fieldErrors (by
      simp [processFieldResults, personIdFieldClean, charRequiredClean, hp, hne,
        clean_person_id, validate_person_id_unique, hc])
  · intro u p hu hp hi hne hf hcu hpne hcp
    simp [processFullClean, processFieldResults, fieldErrors, usernameFieldClean,
      personIdFieldClean, instrumentsFieldClean, charRequiredClean, clean_username,
      clean_person_id, validate_person_id_unique, hu, hp, hi, hne, hf, hcu, hpne, hcp]

/-- Witness for C7: a submission reusing an existing username receives the
duplicate-username error. -/
theorem c7_witness :
    ("username", duplicate_username_message) ∈
      (processFullClean ⟨["taken"], ["p1"], []⟩ (fun _ => true)
        ⟨some "taken", some "p9", []⟩).1 :=
  (c7_process_request_validation ⟨["taken"], ["p1"], []⟩ (fun _ => true)
      ⟨some "taken", some "p9", []⟩).1 "taken" rfl (by decide) rfl (by decide)

/-- C8: when the `username` and `person_id` fields pass validation, the form's
cleaned value for each of them is Python `None` rather than the submitted
string, because `clean_username` and `clean_person_id` return no value on
their success paths. -/
theorem c8_cleaned_values_are_none (db : Db) (fmt : String → Bool)
    (s : PMRSubmission) :
    (∀ u, s.username = some u → u ≠ "" → fmt u = true → u ∉ db.existingUsernames →
       cdLookup (processFullClean db fmt s).2 "username" = some .pynone) ∧
    (∀ p, s.person_id = some p → p ≠ "" → p ∉ db.usedPersonIds →
       cdLookup (processFullClean db fmt s).2 "person_id" = some .pynone) := by
  constructor
  · intro u hu hne hf hc
    simp [processFullClean, processFieldResults, fieldCleaned, usernameFieldClean,
      charRequiredClean, clean_username, hu, hne, hf, hc, cdLookup]
  · intro p hp hne hc
    rcases h1 : usernameFieldClean db fmt s.username with c | v <;>
      simp [processFullClean, processFieldResults, fieldCleaned, personIdFieldClean,
        charRequiredClean, clean_person_id, validate_person_id_unique, hp, hne, hc,
        h1, cdLookup]

/-- Witness for C8: with a fresh username and unused person-id, both cleaned
values are `None`. -/
theorem c8_witness :
    cdLookup (processFullClean ⟨["taken"], ["p1"], []⟩ (fun _ => true)
      ⟨some "fresh", some "p9", []⟩).2 "username" = some .pynone :=
  (c8_cleaned_values_are_none ⟨["taken"], ["p1"], []⟩ (fun _ => true)
      ⟨some "fresh", some "p9", []⟩).1 "fresh" rfl (by decide) rfl (by decide)

/-- C9: every field `ProfileForm` exposes is marked required (whatever the
underlying model's nullability), and a submission missing any of them is
rejected. -/
theorem c9_profile_required (personBlank : String → Bool)
    (s : String → Option String) (f : String)
    (hf : f ∈ profileFields) (hm : s f = none) :
    (∀ g ∈ profileFields, cfgLookup (profileFormFields personBlank) g = some ⟨true⟩) ∧
    profileFieldErrors personBlank s ≠ [] := by
  constructor
  · intro g hg
    fin_cases hg <;> rfl
  · have hmem : (f, FieldCfg.mk true) ∈ profileFormFields personBlank := by
      unfold profileFormFields profileBaseFields
      exact List.mem_map.mpr ⟨(f, ⟨!personBlank f⟩), List.mem_map.mpr ⟨f, hf, rfl⟩, rfl⟩
    have hin : (f, "required") ∈ profileFieldErrors personBlank s := by
      unfold profileFieldErrors
      exact List.mem_flatMap.mpr ⟨(f, ⟨true⟩), hmem, by simp [requiredClean, hm]⟩
    exact List.ne_nil_of_mem hin

/-- Witness for C9: a submission missing `email` (on a model allowing blanks
everywhere) is rejected. -/
theorem c9_witness :
    profileFieldErrors (fun _ => true) (fun _ => none) ≠ [] :=
  (c9_profile_required (fun _ => true) (fun _ => none) "email" (by decide) rfl).2

/-- A boolean-choice field cleans successfully only on an explicit Yes or
No answer, and then to that answer. -/
theorem booleanChoiceClean_ok {v : Option String} {y : String}
    (h : booleanChoiceClean v = .ok y) :
    (v = some "Yes" ∧ y = "Yes") ∨ (v = some "No" ∧ y = "No") := by
  cases v with
  | none => simp [booleanChoiceClean, choiceFieldClean] at h
  | some a =>
    by_cases h1 : a = ""
    · simp [booleanChoiceClean, choiceFieldClean, h1] at h
    · by_cases h2 : a ∈ ["Yes", "No"]
      · have hy : a = y := by
          simp [booleanChoiceClean, choiceFieldClean, h1, h2] at h
          exact h
        subst hy
        simp only [List.mem_cons, List.mem_singleton, List.not_mem_nil, or_false]
          at h2
        rcases h2 with h2 | h2
        · exact Or.inl ⟨by rw [h2], h2⟩
        · exact Or.inr ⟨by rw [h2], h2⟩
      · simp [booleanChoiceClean, choiceFieldClean, h1, h2] at h

/-- C6: on every successfully validated `SubscribeForm` submission, the
cleaned value of each of the four boolean-choice fields is the boolean true
exactly when the submitted (validated) value was "Yes" and the boolean false
when it was "No" — never a string — by the time `clean` has completed. -/
theorem c6_boolean_fields_normalized (s : SubscribeSubmission) (othersOk : Bool)
    (cd : CleanedData)
    (h : subscribeFullClean s othersOk = .ok ([], cd)) :
    cdLookup cd "is_student" =
      some (.bool (decide (s.is_student = some "Yes"))) ∧
    cdLookup cd "photo_video_consent_external_group" =
      some (.bool (decide (s.photo_video_consent_external_group = some "Yes"))) ∧
    cdLookup cd "photo_video_consent_external" =
      some (.bool (decide (s.photo_video_consent_external = some "Yes"))) ∧
    cdLookup cd "photo_video_consent_internal" =
      some (.bool (decide (s.photo_video_consent_internal = some "Yes"))) := by
  rcases hc : subscribeClean (fieldCleaned (subscribeFieldResults s)) with e | cd0
  · simp [subscribeFullClean, hc] at h
  have hpair : (fieldErrors (subscribeFieldResults s) ++
      (if othersOk then [] else [("__others__", "invalid")])) = [] ∧ cd0 = cd := by
    simpa [subscribeFullClean, hc] using h
  obtain ⟨hE, rfl⟩ := hpair
  have hFE : fieldErrors (subscribeFieldResults s) = [] :=
    (List.append_eq_nil.mp hE).1
  have noErr : ∀ {n c : String},
      (n, Except.error c) ∈ subscribeFieldResults s → False := by
    intro n c hm
    have := mem_fieldErrors hm
    rw [hFE] at this
    exact absurd this (List.not_mem_nil _)
  obtain ⟨y1, h1⟩ : ∃ y, booleanChoiceClean s.is_student = .ok y := by
    rcases hr : booleanChoiceClean s.is_student with c | y
    · exact absurd (show ("is_student", Except.error c) ∈ subscribeFieldResults s by
        simp [subscribeFieldResults, hr, Except.map]) (fun hm => noErr hm)
    · exact ⟨y, rfl⟩
  obtain ⟨y2, h2⟩ : ∃ y, booleanChoiceClean s.photo_video_consent_external_group = .ok y := by
    rcases hr : booleanChoiceClean s.photo_video_consent_external_group with c | y
    · exact absurd (show ("photo_video_consent_external_group", Except.error c) ∈ subscribeFieldResults s by
        simp [subscribeFieldResults, hr, Except.map]) (fun hm => noErr hm)
    · exact ⟨y, rfl⟩
  obtain ⟨y3, h3⟩ : ∃ y, booleanChoiceClean s.photo_video_consent_external = .ok y := by
    rcases hr : booleanChoiceClean s.photo_video_consent_external with c | y
    · exact absurd (show ("photo_video_consent_external", Except.error c) ∈ subscribeFieldResults s by
        simp [subscribeFieldResults, hr, Except.map]) (fun hm => noErr hm)
    · exact ⟨y, rfl⟩
  obtain ⟨y4, h4⟩ : ∃ y, booleanChoiceClean s.photo_video_consent_internal = .ok y := by
    rcases hr : booleanChoiceClean s.photo_video_consent_internal with c | y
    · exact absurd (show ("photo_video_consent_internal", Except.error c) ∈ subscribeFieldResults s by
        simp [subscribeFieldResults, hr, Except.map]) (fun hm => noErr hm)
    · exact ⟨y, rfl⟩
  obtain ⟨l5, h5⟩ : ∃ l, checkboxClean s.ensure_subscribe = .ok l := by
    rcases hr : checkboxClean s.ensure_subscribe with c | l
    · exact absurd (show ("ensure_subscribe", Except.error c) ∈ subscribeFieldResults s by
        simp [subscribeFieldResults, hr, Except.map]) (fun hm => noErr hm)
    · exact ⟨l, rfl⟩
  obtain ⟨l6, h6⟩ : ∃ l, checkboxClean s.add_to_chats = .ok l := by
    rcases hr : checkboxClean s.add_to_chats with c | l
    · exact absurd (show ("add_to_chats", Except.error c) ∈ subscribeFieldResults s by
        simp [subscribeFieldResults, hr, Except.map]) (fun hm => noErr hm)
    · exact ⟨l, rfl⟩
  have hCD : fieldCleaned (subscribeFieldResults s) =
      [("is_student", Value.str y1),
       ("photo_video_consent_external_group", Value.str y2),
       ("photo_video_consent_external", Value.str y3),
       ("photo_video_consent_internal", Value.str y4),
       ("ensure_subscribe", Value.strList l5),
       ("add_to_chats", Value.strList l6)] := by
    simp [fieldCleaned, subscribeFieldResults, h1, h2, h3, h4, h5, h6, Except.map]
  rw [hCD] at hc
  simp only [subscribeClean, subscribeCleanStep, cdLookup, cdSet, bind, Except.bind,
    reduceIte, String.reduceEq, Option.some.injEq, Except.ok.injEq] at hc
  subst hc
  rcases booleanChoiceClean_ok h1 with ⟨hv1, rfl⟩ | ⟨hv1, rfl⟩ <;>
  rcases booleanChoiceClean_ok h2 with ⟨hv2, rfl⟩ | ⟨hv2, rfl⟩ <;>
  rcases booleanChoiceClean_ok h3 with ⟨hv3, rfl⟩ | ⟨hv3, rfl⟩ <;>
  rcases booleanChoiceClean_ok h4 with ⟨hv4, rfl⟩ | ⟨hv4, rfl⟩ <;>
    simp [cdLookup, hv1, hv2, hv3, hv4]

/-- Witness for C6 at a concrete valid submission: the cleaned boolean
fields hold booleans reflecting the Yes/No answers. -/
theorem c6_witness :
    cdLookup
      [("is_student", Value.bool false),
       ("photo_video_consent_external_group", Value.bool true),
       ("photo_video_consent_external", Value.bool false),
       ("photo_video_consent_internal", Value.bool true),
       ("ensure_subscribe", Value.strList ["True"]),
       ("add_to_chats", Value.strList ["True"])] "is_student" =
    some (.bool (decide
      ((⟨some "Yes", some "No", some "Yes", some "No", ["True"], ["True"]⟩ :
          SubscribeSubmission).is_student = some "Yes"))) :=
  (c6_boolean_fields_normalized
      ⟨some "Yes", some "No", some "Yes", some "No", ["True"], ["True"]⟩ true _ rfl).1

end Tutti
